import Mathlib

/-!
Shallow embedding of the Proxmox VE Home Assistant integration's HA-state
core: the select entity platform (`custom_components/proxmoxve/select.py`)
together with the HA coordinator and payload normalizer.  The coordinator
and normalizer modules themselves are not part of the source tree sample
(only their tests are), so those definitions are modelled from the spec,
as marked on each such definition.
-/

set_option autoImplicit false

namespace ProxmoxVE

/-- Modelled from the spec: the `ProxmoxHAState` enumeration lives in
`const.py`, which is absent from the source tree.  The spec describes it as
"a fixed enumeration — e.g. started/stopped/disabled/ignored/migrate". -/
inductive ProxmoxHAState where
  | started
  | stopped
  | disabled
  | ignored
  | migrate
deriving DecidableEq, Repr

/-- The string value of an enumeration member (`state.value` in Python). -/
def ProxmoxHAState.value : ProxmoxHAState → String
  | .started => "started"
  | .stopped => "stopped"
  | .disabled => "disabled"
  | .ignored => "ignored"
  | .migrate => "migrate"

/-- Iteration order of the enumeration (`for state in ProxmoxHAState`). -/
def allHAStates : List ProxmoxHAState :=
  [.started, .stopped, .disabled, .ignored, .migrate]

/-- `[state.value for state in ProxmoxHAState]`, the list comprehension used
both for the published options (select.py line 47) and for the validation
check (select.py line 162). -/
def haStateValues : List String := allHAStates.map ProxmoxHAState.value

/-- `ProxmoxHAResourceData` from `models.py` (fields listed by the spec's
data model and by the tests' `_build_ha_resource`). -/
structure ProxmoxHAResourceData where
  sid : String
  type : String
  vmid : Nat
  state : String
  group : Option String
  status : Option String
  request_state : Option String
  max_relocate : Option Nat
  max_restart : Option Nat
  digest : Option String
deriving DecidableEq, Repr

/-- The HA snapshot: a Python dict from `sid` to resource record, embedded
as an insertion-ordered association list without duplicate keys. -/
abbrev HAData := List (String × ProxmoxHAResourceData)

/-- `d.get(sid)` on the snapshot dict: first (only) binding of the key. -/
def dictGet (d : HAData) (sid : String) : Option ProxmoxHAResourceData :=
  match d with
  | [] => none
  | (k, v) :: rest => if k = sid then some v else dictGet rest sid

/-- `d[sid] = r` on the snapshot dict: replace an existing binding in place,
else append (Python dict insertion semantics). -/
def dictInsert (d : HAData) (sid : String) (r : ProxmoxHAResourceData) : HAData :=
  match d with
  | [] => [(sid, r)]
  | (k, v) :: rest =>
    if k = sid then (k, r) :: rest else (k, v) :: dictInsert rest sid r

/-- `ProxmoxHASelectEntity.current_option` (select.py lines 141-149): `None`
when the coordinator has no data or the data lacks this entity's sid,
otherwise the resource's `state` field. -/
def current_option (data : Option HAData) (sid : String) : Option String :=
  match data with
  | none => none
  | some d =>
    match dictGet d sid with
    | none => none
    | some resource => some resource.state

/-- `ProxmoxHASelectEntity.available` (select.py lines 151-158):
`super().available and self.coordinator.data is not None and
self._sid in self.coordinator.data`.  The base platform entity's own
availability enters as the boolean `superAvailable`. -/
def entityAvailable (superAvailable : Bool) (data : Option HAData) (sid : String) : Bool :=
  superAvailable &&
    (match data with
     | none => false
     | some d => (dictGet d sid).isSome)

/-- A raw (JSON-like) value as returned by the read API. -/
inductive RawValue where
  | str (s : String)
  | nat (n : Nat)
  | list (xs : List RawValue)
  | dict (fields : List (String × RawValue))

/-- Python dict field lookup on a raw mapping. -/
def lookupRaw (fields : List (String × RawValue)) (k : String) : Option RawValue :=
  match fields with
  | [] => none
  | (k2, v) :: rest => if k2 = k then some v else lookupRaw rest k

/-- A raw field read as a string, `None` when absent or not a string. -/
def lookupStr (fields : List (String × RawValue)) (k : String) : Option String :=
  match lookupRaw fields k with
  | some (.str s) => some s
  | _ => none

/-- A raw field read as a number, `None` when absent or not a number. -/
def lookupNat (fields : List (String × RawValue)) (k : String) : Option Nat :=
  match lookupRaw fields k with
  | some (.nat n) => some n
  | _ => none

/-- The recognized resource-type markers: per the spec's data-model
invariant, a sid is kept only when it starts with `vm:` or `ct:`. -/
def recognizedSidType (sid : String) : Option String :=
  if "vm:".data.isPrefixOf sid.data then some "vm"
  else if "ct:".data.isPrefixOf sid.data then some "ct"
  else none

/-- The characters after the first colon. -/
def afterColon (cs : List Char) : List Char :=
  match cs with
  | [] => []
  | c :: rest => if c = ':' then rest else afterColon rest

/-- Parse a nonempty all-digit character sequence as a number. -/
def parseNatChars (cs : List Char) : Option Nat :=
  match cs with
  | [] => none
  | _ =>
    cs.foldl
      (fun acc c =>
        match acc with
        | none => none
        | some n => if c.isDigit then some (n * 10 + (c.toNat - 48)) else none)
      (some 0)

/-- The numeric suffix of a recognized sid (`vmid`); 0 when unparsable
(the spec leaves a non-numeric suffix unspecified). -/
def sidVmid (sid : String) : Nat :=
  (parseNatChars (afterColon sid.data)).getD 0

/-- Modelled from the spec: the payload normalizer lives in
`coordinator.py`/`models.py`, which are absent from the source tree (only
their tests are present).  Spec 4.1: skip any list element that is not a
mapping, or whose `sid` value does not begin with a recognized
resource-type marker followed by a colon; for accepted elements derive
`type` from the marker, parse `vmid` from the numeric suffix, and carry the
`state` field and the optional metadata fields through. -/
def normalizeEntry (v : RawValue) : Option (String × ProxmoxHAResourceData) :=
  match v with
  | .dict fields =>
    match lookupStr fields "sid" with
    | some sid =>
      match recognizedSidType sid with
      | some ty =>
        some (sid,
          { sid := sid
            type := ty
            vmid := sidVmid sid
            state := (lookupStr fields "state").getD ""
            group := lookupStr fields "group"
            status := lookupStr fields "status"
            request_state := lookupStr fields "request_state"
            max_relocate := lookupNat fields "max_relocate"
            max_restart := lookupNat fields "max_restart"
            digest := lookupStr fields "digest" })
      | none => none
    | none => none
  | _ => none

/-- Modelled from the spec (4.1): if the raw response is a mapping
containing key `data`, that key's value is the element list; otherwise the
raw response itself is the list.  A mapping without `data`, a `data` value
that is not a list, or a scalar response contribute no mapping elements,
so they normalize to nothing. -/
def extractItems (raw : RawValue) : List RawValue :=
  match raw with
  | .dict fields =>
    match lookupRaw fields "data" with
    | some (.list xs) => xs
    | _ => []
  | .list xs => xs
  | _ => []

/-- Modelled from the spec: the full normalizer — accepted elements become
dict entries keyed by sid (later duplicates overwrite earlier ones, as a
Python dict build does); skipped elements contribute nothing. -/
def normalize (raw : RawValue) : HAData :=
  (extractItems raw).foldl
    (fun acc v =>
      match normalizeEntry v with
      | some kr => dictInsert acc kr.1 kr.2
      | none => acc)
    []

/-- The outcome of one `poll_api` call, as classified by the coordinator. -/
inductive PollOutcome where
  | ok (raw : RawValue)
  | authFailed
  | updateFailed

/-- Observable coordinator state: the snapshot, the platform flag
`last_update_success`, and how many times the platform re-authentication
trigger has been invoked. -/
structure CoordinatorState where
  data : Option HAData
  last_update_success : Bool
  reauth_calls : Nat

/-- Modelled from the spec: `ProxmoxHACoordinator`'s refresh lives in
`coordinator.py`, absent from the source tree (only its tests are
present).  Spec 4.2: success replaces the snapshot with the normalizer's
output and marks the update successful; an authentication failure
propagates, marks the update unsuccessful, retains the previous snapshot
and triggers the platform re-authentication flow; a feature-absent or
generic (non-auth) poll failure sets the snapshot to the empty mapping and
marks the update successful. -/
def coordinatorRefresh (st : CoordinatorState) (poll : PollOutcome) : CoordinatorState :=
  match poll with
  | .ok raw =>
    { data := some (normalize raw)
      last_update_success := true
      reauth_calls := st.reauth_calls }
  | .authFailed =>
    { data := st.data
      last_update_success := false
      reauth_calls := st.reauth_calls + 1 }
  | .updateFailed =>
    { data := some []
      last_update_success := true
      reauth_calls := st.reauth_calls }

/-- One observable side effect of `async_select_option`, in order. -/
inductive Effect where
  | write (path : String) (state : String)
  | refresh
deriving DecidableEq, Repr

/-- How the `put_api` executor job behaves when called: returns, raises a
`ResourceException`, or raises a `ConnectTimeout`. -/
inductive WriteBehavior where
  | ok
  | resourceError (msg : String)
  | connectTimeout (msg : String)

/-- The original failure preserved as the cause of a raised error. -/
inductive ErrorCause where
  | resourceError (msg : String)
  | connectTimeout (msg : String)
deriving DecidableEq, Repr

/-- How `async_select_option` returns: normally, or by raising a
`HomeAssistantError` with a message and an optional preserved cause. -/
inductive SelectOutcome where
  | ok
  | homeAssistantError (msg : String) (cause : Option ErrorCause)
deriving DecidableEq, Repr

/-- The observable result of one `async_select_option` call: its outcome,
the ordered trace of side effects it issued, and the coordinator snapshot
after the call returns (the method itself never assigns it). -/
structure SelectCallResult where
  outcome : SelectOutcome
  effects : List Effect
  data : Option HAData
deriving DecidableEq, Repr

/-- `ProxmoxHASelectEntity.async_select_option` (select.py lines 160-183):
validate the option against the HA-state enumeration values, then issue
one `put_api` write to `cluster/ha/resources/{sid}` with `state=option`;
a `ResourceException` or `ConnectTimeout` from the write is re-raised as a
`HomeAssistantError` carrying the cause; on success request one
coordinator refresh after the write. -/
def async_select_option (sid : String) (data : Option HAData) (option : String)
    (write : WriteBehavior) : SelectCallResult :=
  if option ∉ haStateValues then
    { outcome := .homeAssistantError ("Invalid HA state: " ++ option) none
      effects := []
      data := data }
  else
    let api_path := "cluster/ha/resources/" ++ sid
    match write with
    | .ok =>
      { outcome := .ok
        effects := [.write api_path option, .refresh]
        data := data }
    | .resourceError e =>
      { outcome := .homeAssistantError
          ("Failed to set HA state for " ++ sid ++ " to " ++ option ++ ": " ++ e)
          (some (.resourceError e))
        effects := [.write api_path option]
        data := data }
    | .connectTimeout e =>
      { outcome := .homeAssistantError
          ("Timeout setting HA state for " ++ sid ++ ": " ++ e)
          (some (.connectTimeout e))
        effects := [.write api_path option]
        data := data }

/-- Modelled from the spec: the `ProxmoxType.QEMU` string value from
`const.py` (absent from the source tree), used to build coordinator keys
`f"qemu_{vm_id}"`. -/
def qemuType : String := "qemu"

/-- Modelled from the spec: the `ProxmoxType.LXC` string value. -/
def lxcType : String := "lxc"

/-- What `async_setup_entry` records about each created select entity:
its unique id and its target sid (its coordinator, device info, options
and client handle are shared/derived and not entity-specific data). -/
structure SelectEntitySpec where
  unique_id : String
  sid : String
deriving DecidableEq, Repr

/-- The inputs `async_setup_entry` reads: the config entry's id and its
configured QEMU/LXC identifier lists, the HA coordinator looked up in the
runtime coordinator mapping (`none` when the key is absent) together with
its data, and the key set of the runtime coordinator mapping. -/
structure SetupInput where
  entry_id : String
  qemu : List String
  lxc : List String
  haCoordinator : Option (Option HAData)
  coordKeys : List String

/-- One iteration of the QEMU loop of `async_setup_entry` (select.py lines
71-92): skip when `vm:{vm_id}` is not in the HA snapshot or
`qemu_{vm_id}` is not a coordinator key, else create the entity. -/
def setupQemuEntity (inp : SetupInput) (ha : HAData) (vm_id : String) :
    Option SelectEntitySpec :=
  let sid := "vm:" ++ vm_id
  if (dictGet ha sid).isSome = true then
    if (qemuType ++ "_" ++ vm_id) ∈ inp.coordKeys then
      some { unique_id := inp.entry_id ++ "_" ++ vm_id ++ "_ha_state", sid := sid }
    else none
  else none

/-- One iteration of the LXC loop of `async_setup_entry` (select.py lines
94-115). -/
def setupLxcEntity (inp : SetupInput) (ha : HAData) (ct_id : String) :
    Option SelectEntitySpec :=
  let sid := "ct:" ++ ct_id
  if (dictGet ha sid).isSome = true then
    if (lxcType ++ "_" ++ ct_id) ∈ inp.coordKeys then
      some { unique_id := inp.entry_id ++ "_" ++ ct_id ++ "_ha_state", sid := sid }
    else none
  else none

/-- `async_setup_entry` (select.py lines 52-117): returns immediately when
the HA coordinator is missing or has no data; otherwise creates one select
entity per configured QEMU id then per configured LXC id that passes the
snapshot-membership and per-type-coordinator checks.  The returned list is
what is passed to `async_add_entities`. -/
def async_setup_entry (inp : SetupInput) : List SelectEntitySpec :=
  match inp.haCoordinator with
  | none => []
  | some none => []
  | some (some ha) =>
    inp.qemu.filterMap (setupQemuEntity inp ha) ++
      inp.lxc.filterMap (setupLxcEntity inp ha)

/-- The options metadata published by `PROXMOX_SELECT_HA_STATE`
(select.py lines 41-49); only the options list is behaviour-relevant. -/
structure ProxmoxSelectEntityDescription where
  key : String
  icon : String
  name : String
  translation_key : String
  options : List String

/-- `PROXMOX_SELECT_HA_STATE` (select.py lines 41-49). -/
def PROXMOX_SELECT_HA_STATE : ProxmoxSelectEntityDescription :=
  { key := "ha_state"
    icon := "mdi:shield-sync"
    name := "HA state"
    translation_key := "ha_state"
    options := haStateValues }

/-- `needle` occurs somewhere inside `hay`: the sense in which an error
message "identifies" a resource id or a state value. -/
def mentions (hay needle : String) : Prop :=
  needle.data <:+: hay.data

instance (hay needle : String) : Decidable (mentions hay needle) :=
  inferInstanceAs (Decidable (needle.data <:+: hay.data))

/-- A string built around `needle` mentions it. -/
theorem mentions_of_parts (hay needle pre post : String)
    (h : hay.data = pre.data ++ needle.data ++ post.data) : mentions hay needle := by
  show needle.data <:+: hay.data
  rw [h]
  exact List.infix_append _ _ _

/-- A sample resource record, as the tests build one. -/
def sampleResource (sid : String) (vmid : Nat) (state : String) : ProxmoxHAResourceData :=
  { sid := sid
    type := (recognizedSidType sid).getD ""
    vmid := vmid
    state := state
    group := none
    status := none
    request_state := none
    max_relocate := none
    max_restart := none
    digest := none }

/-- A sample one-resource snapshot (`{"vm:101": started}`). -/
def sampleData : HAData := [("vm:101", sampleResource "vm:101" 101 "started")]

/-- Claim C1: a coordinator refresh whose poll raises a feature-absent or
generic (non-authentication) failure leaves the coordinator with the empty
mapping as data and `last_update_success` true — the failure is absorbed,
not surfaced. -/
theorem c1_generic_poll_failure_absorbed (st : CoordinatorState) :
    (coordinatorRefresh st .updateFailed).data = some [] ∧
    (coordinatorRefresh st .updateFailed).last_update_success = true :=
  ⟨rfl, rfl⟩

/-- Claim C7: a coordinator refresh whose poll raises an authentication
failure marks the update unsuccessful, invokes the platform
re-authentication trigger exactly once, and retains the previous snapshot
unchanged. -/
theorem c7_auth_failure_triggers_reauth (st : CoordinatorState) :
    (coordinatorRefresh st .authFailed).last_update_success = false ∧
    (coordinatorRefresh st .authFailed).reauth_calls = st.reauth_calls + 1 ∧
    (coordinatorRefresh st .authFailed).data = st.data :=
  ⟨rfl, rfl, rfl⟩

/-- Claim C2: the select entity is available exactly when the base
entity's own availability holds, the coordinator snapshot is present, and
the snapshot contains the entity's sid; in particular it is unavailable
whenever the sid is absent, even if the base entity is available. -/
theorem c2_available_iff (s : Bool) (data : Option HAData) (sid : String) :
    (entityAvailable s data sid = true ↔
      s = true ∧ ∃ d, data = some d ∧ (dictGet d sid).isSome = true) ∧
    (∀ d, data = some d → dictGet d sid = none → entityAvailable s data sid = false) := by
  constructor
  · cases data with
    | none => simp [entityAvailable]
    | some d => simp [entityAvailable, Bool.and_eq_true]
  · intro d hd hget
    subst hd
    simp [entityAvailable, hget]

/-- The second part of C2 at a concrete state: base entity available, sid
`ct:100` absent from the snapshot, entity unavailable. -/
theorem c2_available_witness :
    entityAvailable true (some sampleData) "ct:100" = false :=
  (c2_available_iff true (some sampleData) "ct:100").right sampleData rfl (by decide)

/-- Claim C6: `current_option` is `None` exactly when the snapshot is
`None` or lacks the entity's sid, and otherwise is the matching resource
record's `state` field verbatim (it is a pure function of the snapshot,
recomputed from it on every access). -/
theorem c6_current_option_reads_state (data : Option HAData) (sid : String) :
    (current_option data sid = none ↔
      data = none ∨ ∃ d, data = some d ∧ dictGet d sid = none) ∧
    (∀ d r, data = some d → dictGet d sid = some r →
      current_option data sid = some r.state) := by
  constructor
  · cases data with
    | none => simp [current_option]
    | some d =>
      cases hget : dictGet d sid with
      | none => simp [current_option, hget]
      | some r => simp [current_option, hget]
  · intro d r hd hget
    subst hd
    simp [current_option, hget]

/-- The positive part of C6 at a concrete state: the snapshot holds
`vm:101` with state `started`, and `current_option` reads it verbatim. -/
theorem c6_current_option_witness :
    current_option (some sampleData) "vm:101" =
      some (sampleResource "vm:101" 101 "started").state :=
  (c6_current_option_reads_state (some sampleData) "vm:101").right
    sampleData (sampleResource "vm:101" 101 "started") rfl (by decide)

/-- Claim C3: a `select_option` call with a valid enumeration member whose
write succeeds issues exactly one write, to `cluster/ha/resources/{sid}`
with the chosen state, followed (only after the write) by exactly one
coordinator refresh request, and leaves the coordinator snapshot
untouched. -/
theorem c3_select_success_trace (sid opt : String) (data : Option HAData)
    (h : opt ∈ haStateValues) :
    async_select_option sid data opt .ok =
      { outcome := .ok
        effects := [.write ("cluster/ha/resources/" ++ sid) opt, .refresh]
        data := data } := by
  simp [async_select_option, h]

/-- C3 at the test's concrete input: `stopped` on `vm:101`. -/
theorem c3_select_success_witness :
    async_select_option "vm:101" (some sampleData) "stopped" .ok =
      { outcome := .ok
        effects := [.write "cluster/ha/resources/vm:101" "stopped", .refresh]
        data := some sampleData } := by
  rw [c3_select_success_trace "vm:101" "stopped" (some sampleData) (by decide)]
  decide

/-- Claim C4 fails as stated: on a connection-timeout failure the raised
message identifies the resource but not the attempted state value — at
sid `vm:101`, option `stopped`, cause `boom`, the message is
`Timeout setting HA state for vm:101: boom`, which does not mention
`stopped`. -/
theorem c4_counterexample :
    (async_select_option "vm:101" (some sampleData) "stopped"
        (.connectTimeout "boom")).outcome =
      .homeAssistantError "Timeout setting HA state for vm:101: boom"
        (some (.connectTimeout "boom")) ∧
    ¬ mentions "Timeout setting HA state for vm:101: boom" "stopped" := by
  exact ⟨by decide, by decide⟩

/-- Claim C4 as amended: a write failure of either kind raises a single
generic user-facing error that preserves the original failure as its
cause and identifies the resource; the resource-specific error's message
additionally identifies the attempted state value (the timeout message
does not).  In both cases the write was the only effect — no coordinator
refresh is issued — and the snapshot is untouched. -/
theorem c4_amended_write_errors (sid opt e : String) (data : Option HAData)
    (h : opt ∈ haStateValues) :
    (∃ msg,
      async_select_option sid data opt (.resourceError e) =
        { outcome := .homeAssistantError msg (some (.resourceError e))
          effects := [.write ("cluster/ha/resources/" ++ sid) opt]
          data := data } ∧
      mentions msg sid ∧ mentions msg opt) ∧
    (∃ msg,
      async_select_option sid data opt (.connectTimeout e) =
        { outcome := .homeAssistantError msg (some (.connectTimeout e))
          effects := [.write ("cluster/ha/resources/" ++ sid) opt]
          data := data } ∧
      mentions msg sid) := by
  constructor
  · refine ⟨"Failed to set HA state for " ++ sid ++ " to " ++ opt ++ ": " ++ e,
      ?_, ?_, ?_⟩
    · simp [async_select_option, h]
    · exact mentions_of_parts _ sid "Failed to set HA state for "
        (" to " ++ opt ++ ": " ++ e) (by simp [String.data_append])
    · exact mentions_of_parts _ opt
        ("Failed to set HA state for " ++ sid ++ " to ") (": " ++ e)
        (by simp [String.data_append])
  · refine ⟨"Timeout setting HA state for " ++ sid ++ ": " ++ e, ?_, ?_⟩
    · simp [async_select_option, h]
    · exact mentions_of_parts _ sid "Timeout setting HA state for " (": " ++ e)
        (by simp [String.data_append])

/-- The resource-error half of amended C4 at a concrete input. -/
theorem c4_amended_witness :
    ∃ msg,
      async_select_option "vm:101" (some sampleData) "stopped" (.resourceError "boom") =
        { outcome := .homeAssistantError msg (some (.resourceError "boom"))
          effects := [.write ("cluster/ha/resources/" ++ "vm:101") "stopped"]
          data := some sampleData } ∧
      mentions msg "vm:101" ∧ mentions msg "stopped" :=
  (c4_amended_write_errors "vm:101" "stopped" "boom" (some sampleData) (by decide)).left

/-- Claim C5: a `select_option` call with an option outside the HA-state
enumeration raises a user-facing error (with no preserved cause) whose
message identifies the invalid value, and issues no effect at all — in
particular no write call. -/
theorem c5_invalid_option_no_write (sid opt : String) (data : Option HAData)
    (w : WriteBehavior) (h : opt ∉ haStateValues) :
    (∃ msg, (async_select_option sid data opt w).outcome =
        .homeAssistantError msg none ∧ mentions msg opt) ∧
    (async_select_option sid data opt w).effects = [] := by
  refine ⟨⟨"Invalid HA state: " ++ opt, ?_, ?_⟩, ?_⟩
  · simp [async_select_option, h]
  · exact mentions_of_parts _ opt "Invalid HA state: " "" (by simp [String.data_append])
  · simp [async_select_option, h]

/-- C5 at the test's concrete input: `invalid_state`. -/
theorem c5_invalid_option_witness :
    (∃ msg, (async_select_option "vm:101" (some sampleData) "invalid_state" .ok).outcome =
        .homeAssistantError msg none ∧ mentions msg "invalid_state") ∧
    (async_select_option "vm:101" (some sampleData) "invalid_state" .ok).effects = [] :=
  c5_invalid_option_no_write "vm:101" "invalid_state" (some sampleData) .ok (by decide)

/-- Claim C10: any option drawn from the entity description's published
options list passes `select_option`'s validation — the invalid-value
branch is unreachable from the platform UI: the call always proceeds to
issue the write (its effect trace starts with the write call), because the
published options and the validation check are the same enumeration's
value list. -/
theorem c10_published_options_always_valid (sid opt : String) (data : Option HAData)
    (w : WriteBehavior) (h : opt ∈ PROXMOX_SELECT_HA_STATE.options) :
    ∃ rest, (async_select_option sid data opt w).effects =
      Effect.write ("cluster/ha/resources/" ++ sid) opt :: rest := by
  have hv : opt ∈ haStateValues := h
  cases w with
  | ok => exact ⟨[.refresh], by simp [async_select_option, hv]⟩
  | resourceError e => exact ⟨[], by simp [async_select_option, hv]⟩
  | connectTimeout e => exact ⟨[], by simp [async_select_option, hv]⟩

/-- C10 at a concrete published option (`migrate`). -/
theorem c10_published_options_witness :
    ∃ rest, (async_select_option "vm:101" (some sampleData) "migrate" .ok).effects =
      Effect.write ("cluster/ha/resources/" ++ "vm:101") "migrate" :: rest :=
  c10_published_options_always_valid "vm:101" "migrate" (some sampleData) .ok (by decide)

/-- An element the normalizer must exclude: not a mapping at all, or a
mapping whose `sid` (when it is present as a string) does not begin with
a recognized resource-type marker. -/
def badElement (v : RawValue) : Prop :=
  (∀ fields, v ≠ .dict fields) ∨
  (∃ fields, v = .dict fields ∧
    ∀ sid, lookupStr fields "sid" = some sid → recognizedSidType sid = none)

/-- The concrete payload of claim C8. -/
def samplePayload : RawValue :=
  .dict [("data", .list
    [ .dict [("sid", .str "vm:101"), ("state", .str "started")]
    , .dict [("sid", .str "ct:100"), ("state", .str "stopped")]
    , .dict [("sid", .str "node:abc"), ("state", .str "started")]
    , .str "garbage" ])]

/-- Claim C8: the normalizer turns every excluded element into no entry at
all (it never raises — it is a total function), and on the concrete
payload of the claim the resulting snapshot has exactly the keys
`vm:101` and `ct:100`, with states `started` and `stopped`. -/
theorem c8_normalizer_excludes_malformed :
    (∀ v, badElement v → normalizeEntry v = none) ∧
    (normalize samplePayload).map (fun p => (p.1, p.2.state)) =
      [("vm:101", "started"), ("ct:100", "stopped")] := by
  constructor
  · intro v hv
    cases v with
    | str s => rfl
    | nat n => rfl
    | list xs => rfl
    | dict fields =>
      rcases hv with hnd | ⟨fields2, heq, hsid⟩
      · exact absurd rfl (hnd fields)
      · obtain rfl : fields = fields2 := by injection heq
        simp only [normalizeEntry]
        cases hs : lookupStr fields "sid" with
        | none => rfl
        | some sid => simp [hsid sid hs]
  · decide

/-- The exclusion half of C8 applied to the payload's non-mapping element
`"garbage"`. -/
theorem c8_normalizer_witness : normalizeEntry (.str "garbage") = none :=
  c8_normalizer_excludes_malformed.left (.str "garbage")
    (Or.inl fun _ h => RawValue.noConfusion h)

/-- One QEMU-loop iteration creates an entity exactly when the sid is in
the snapshot and the per-type coordinator key exists. -/
theorem setupQemuEntity_eq_some (inp : SetupInput) (ha : HAData) (vid : String)
    (e : SelectEntitySpec) :
    setupQemuEntity inp ha vid = some e ↔
      (dictGet ha ("vm:" ++ vid)).isSome = true ∧
      (qemuType ++ "_" ++ vid) ∈ inp.coordKeys ∧
      e = { unique_id := inp.entry_id ++ "_" ++ vid ++ "_ha_state",
            sid := "vm:" ++ vid } := by
  unfold setupQemuEntity
  by_cases h1 : (dictGet ha ("vm:" ++ vid)).isSome = true
  · by_cases h2 : (qemuType ++ "_" ++ vid) ∈ inp.coordKeys
    · simp [h1, h2, eq_comm]
    · simp [h1, h2]
  · simp [h1]

/-- One LXC-loop iteration creates an entity exactly when the sid is in
the snapshot and the per-type coordinator key exists. -/
theorem setupLxcEntity_eq_some (inp : SetupInput) (ha : HAData) (cid : String)
    (e : SelectEntitySpec) :
    setupLxcEntity inp ha cid = some e ↔
      (dictGet ha ("ct:" ++ cid)).isSome = true ∧
      (lxcType ++ "_" ++ cid) ∈ inp.coordKeys ∧
      e = { unique_id := inp.entry_id ++ "_" ++ cid ++ "_ha_state",
            sid := "ct:" ++ cid } := by
  unfold setupLxcEntity
  by_cases h1 : (dictGet ha ("ct:" ++ cid)).isSome = true
  · by_cases h2 : (lxcType ++ "_" ++ cid) ∈ inp.coordKeys
    · simp [h1, h2, eq_comm]
    · simp [h1, h2]
  · simp [h1]

/-- The HA snapshot of claim C9's scenario: `vm:101` and `ct:100`, both
`started`. -/
def scenarioHa : HAData :=
  [("vm:101", sampleResource "vm:101" 101 "started"),
   ("ct:100", sampleResource "ct:100" 100 "started")]

/-- The setup inputs of claim C9's scenario (as in the test: QEMU ids 101
and 102, LXC ids 100 and 200, per-resource coordinators only for 101 and
100). -/
def scenarioInput : SetupInput :=
  { entry_id := "entry1"
    qemu := ["101", "102"]
    lxc := ["100", "200"]
    haCoordinator := some (some scenarioHa)
    coordKeys := ["resources_ha", "qemu_101", "lxc_100"] }

/-- Claim C9: whenever the HA coordinator is present with data, setup
creates an entity exactly for each configured QEMU/LXC identifier whose
sid is in the HA snapshot and whose per-type coordinator key exists, and
no others; in the concrete scenario exactly the two entities
`entry1_101_ha_state` and `entry1_100_ha_state` are created and both
report `current_option = started`. -/
theorem c9_setup_creates_matching_entities :
    (∀ inp ha e, inp.haCoordinator = some (some ha) →
      (e ∈ async_setup_entry inp ↔
        (∃ vid, vid ∈ inp.qemu ∧ (dictGet ha ("vm:" ++ vid)).isSome = true ∧
          (qemuType ++ "_" ++ vid) ∈ inp.coordKeys ∧
          e = { unique_id := inp.entry_id ++ "_" ++ vid ++ "_ha_state",
                sid := "vm:" ++ vid }) ∨
        (∃ cid, cid ∈ inp.lxc ∧ (dictGet ha ("ct:" ++ cid)).isSome = true ∧
          (lxcType ++ "_" ++ cid) ∈ inp.coordKeys ∧
          e = { unique_id := inp.entry_id ++ "_" ++ cid ++ "_ha_state",
                sid := "ct:" ++ cid }))) ∧
    (async_setup_entry scenarioInput).map
        (fun e => (e.unique_id, current_option (some scenarioHa) e.sid)) =
      [("entry1_101_ha_state", some "started"),
       ("entry1_100_ha_state", some "started")] := by
  constructor
  · intro inp ha e h
    unfold async_setup_entry
    rw [h]
    simp only [List.mem_append, List.mem_filterMap, setupQemuEntity_eq_some,
      setupLxcEntity_eq_some]
  · decide

/-- The characterization half of C9 applied in the concrete scenario: the
qualifying QEMU id 101 yields its entity. -/
theorem c9_setup_witness :
    ({ unique_id := "entry1_101_ha_state", sid := "vm:101" } : SelectEntitySpec) ∈
      async_setup_entry scenarioInput :=
  (c9_setup_creates_matching_entities.left scenarioInput scenarioHa _ rfl).mpr
    (Or.inl ⟨"101", by decide, by decide, by decide, by decide⟩)

end ProxmoxVE
